import Mathlib

/-!
# Verification of the CatAPI Streamlit front-end

Shallow embedding of `src/streamlit_app.py` and `src/pages/favorites.py`.

The script keeps three pieces of session state: `last_api_call` (a float
timestamp), `favorites` (a dict keyed by `hashlib.md5(url).hexdigest()`),
and `api_call_count` (an int).  Network calls (`requests.get`,
`requests.head`) and the hash function (`hashlib.md5(...).hexdigest()`) are
external collaborators; we model them as explicit parameters: a stream of
attempt outcomes for the network, a `String → String` function for the
hash.  Timestamps are rationals (Python floats ordered by `<`).

Python dicts preserve insertion order; assignment to an existing key keeps
its position, assignment to a fresh key appends.  We model `favorites` as
an association list with those semantics.
-/

set_option maxRecDepth 40000

namespace CatAPI

/-- `RATE_LIMIT_SECONDS = 2` (src/streamlit_app.py line 11). -/
def RATE_LIMIT_SECONDS : ℚ := 2

/-- `MAX_RETRIES = 3` (src/streamlit_app.py line 12). -/
def MAX_RETRIES : ℕ := 3

/-- `API_BASE_URL = "https://cataas.com"` (src/streamlit_app.py line 10). -/
def API_BASE_URL : String := "https://cataas.com"

/-- The session-state fields touched by `rate_limit_check`:
`st.session_state.last_api_call` and `st.session_state.api_call_count`
(src/streamlit_app.py lines 16-21). -/
structure RLState where
  last_api_call : ℚ
  api_call_count : ℕ
deriving DecidableEq, Repr

/-- `rate_limit_check()` (src/streamlit_app.py lines 24-30):
returns `False` when `current_time - last_api_call < RATE_LIMIT_SECONDS`,
otherwise sets `last_api_call := current_time` and returns `True`.
It never touches `api_call_count`. -/
def rate_limit_check (st : RLState) (current_time : ℚ) : Bool × RLState :=
  if current_time - st.last_api_call < RATE_LIMIT_SECONDS then
    (false, st)
  else
    (true, { last_api_call := current_time, api_call_count := st.api_call_count })

/-- One favorites entry: the dict `{'url': ..., 'tag': ..., 'timestamp': ...}`
stored by `save_to_favorites` (src/streamlit_app.py lines 94-98). -/
structure Favorite where
  url : String
  tag : String
  timestamp : String
deriving DecidableEq, Repr

/-- `st.session_state.favorites`: a Python dict keyed by md5 hex digests,
modelled as an insertion-ordered association list. -/
abbrev Favorites := List (String × Favorite)

/-- The key set of the favorites dict. -/
def favKeys (m : Favorites) : List String := m.map Prod.fst

/-- Python dict assignment `d[k] = v`: replaces the value in place when the
key is present (the entry keeps its position), appends a new entry
otherwise. -/
def dictInsert (m : Favorites) (k : String) (v : Favorite) : Favorites :=
  if k ∈ favKeys m then
    m.map (fun p => if p.1 = k then (k, v) else p)
  else
    m ++ [(k, v)]

/-- `save_to_favorites(image_url, tag)` (src/streamlit_app.py lines 91-99):
computes `image_hash = md5(image_url).hexdigest()` and performs the dict
assignment `favorites[image_hash] = {'url': ..., 'tag': ..., 'timestamp': ...}`.
The md5 hex digest comes from the external `hashlib` library and is passed
in as `md5hex`; `ts` stands for `datetime.now().isoformat()`.
There is no count check and no URL validation anywhere in the function. -/
def save_to_favorites (md5hex : String → String) (image_url tag ts : String)
    (m : Favorites) : Favorites :=
  dictInsert m (md5hex image_url) ⟨image_url, tag, ts⟩

/-- Python `dict.pop(key[, default])` restricted to its effect on the dict:
removes the entry with key `k` when present (keys are unique in a dict, so
removing the first match is removing the match), leaves the dict unchanged
otherwise.  This is the mutation performed both by
`st.session_state.favorites.pop(key)` (src/pages/favorites.py line 26) and
by `st.session_state.favorites.pop(favorite['url'], None)`
(src/streamlit_app.py line 114). -/
def popKey (m : Favorites) (k : String) : Favorites :=
  match m with
  | [] => []
  | p :: rest => if p.1 = k then rest else p :: popKey rest k

/-- A Python exception escaping an operation.  `nameErrorLogging` is the
`NameError: name 'logging' is not defined` raised at
src/streamlit_app.py line 54: the module imports `streamlit, requests,
typing, time, datetime, json, hashlib` (lines 1-7) but never `logging`,
so evaluating `logging.warning(...)` raises. -/
inductive PyErr where
  | nameErrorLogging
deriving DecidableEq, Repr

/-- Outcome of one `requests.get(f"{API_BASE_URL}/api/tags", ...)` call as it
reaches the code: `netFail` is any `requests.RequestException` (connection
error, timeout, or an HTTP error status raised by `raise_for_status`);
`badJson` is a successful response whose JSON body is not a list (the
`isinstance` check raises `ValueError`); `ok tags` is a successful response
whose body is the given JSON array of strings. -/
inductive TagsAttempt where
  | netFail
  | badJson
  | ok (tags : List String)
deriving DecidableEq, Repr

/-- Python's `<=` on strings, on the underlying character lists:
lexicographic comparison by code point, a shorter prefix comparing below
its extensions. -/
def charsLE : List Char → List Char → Bool
  | [], _ => true
  | _ :: _, [] => false
  | a :: as, b :: bs =>
    if a.toNat = b.toNat then charsLE as bs else decide (a.toNat ≤ b.toNat)

/-- Python's `<=` on strings. -/
def pyLE (a b : String) : Bool := charsLE a.data b.data

/-- Python's built-in `sorted` on a list of strings: a stable sort by the
string order `pyLE`.  `sorted` never removes duplicates. -/
def pySorted (l : List String) : List String :=
  List.insertionSort (fun a b => pyLE a b = true) l

/-- The body of the `for attempt in range(MAX_RETRIES)` loop in `fetch_tags`
(src/streamlit_app.py lines 40-62), at a given attempt index.  Every arm of
the body leaves the loop on its first execution, so the backoff
`time.sleep(min(2 ** attempt, 8))` and the later iterations are unreachable:

* success with a JSON list: `return sorted(data)` — no `st.error`;
* success with non-list JSON: `raise ValueError`, caught by the
  `except ValueError` clause which calls `st.error` once and returns `[]`;
* `requests.RequestException`: the handler's first statement is
  `logging.warning(...)`, and `logging` is not imported, so a `NameError`
  escapes `fetch_tags` before `st.error` or the retry can happen.

Returns the function result paired with the number of `st.error` calls. -/
def fetchTagsLoop (net : ℕ → TagsAttempt) (attempt : ℕ) :
    Except PyErr (List String × ℕ) :=
  match net attempt with
  | .ok tags => .ok (pySorted tags, 0)
  | .badJson => .ok ([], 1)
  | .netFail => .error .nameErrorLogging

/-- What a call of `fetch_tags` produces: its return value (or the escaping
exception), the number of `st.warning` calls, the number of `st.error`
calls, and the rate-limiter state afterwards. -/
structure TagsRes where
  result : Except PyErr (List String)
  warnings : ℕ
  errors : ℕ
  st : RLState
deriving Repr

/-- `fetch_tags()` (src/streamlit_app.py lines 33-62).  `net i` is the
outcome the network would give the `i`-th request.  If `rate_limit_check`
fails, warns once and returns `[]`; otherwise runs the retry loop, which
always terminates on attempt 0 (see `fetchTagsLoop`). -/
def fetch_tags (st : RLState) (now : ℚ) (net : ℕ → TagsAttempt) : TagsRes :=
  match rate_limit_check st now with
  | (false, st') => ⟨.ok [], 1, 0, st'⟩
  | (true, st') =>
    match fetchTagsLoop net 0 with
    | .ok (tags, errs) => ⟨.ok tags, 0, errs, st'⟩
    | .error e => ⟨.error e, 0, 0, st'⟩

/-- Drop leading whitespace characters. -/
def stripLeft : List Char → List Char
  | [] => []
  | c :: cs => if c.isWhitespace then stripLeft cs else c :: cs

/-- Python `str.strip()` on the character list: drop whitespace from both
ends. -/
def pyStrip (cs : List Char) : List Char :=
  ((stripLeft ((stripLeft cs).reverse)).reverse)

/-- The sanitization `tag.strip().lower()` performed at
src/streamlit_app.py line 72 (ASCII case-folding, as `Char.toLower`). -/
def pySanitize (tag : String) : String :=
  String.mk ((pyStrip tag.data).map Char.toLower)

/-- Python `str.isalnum()`: true iff the string is nonempty and every
character is alphanumeric. -/
def pyIsAlnum (s : String) : Bool := !s.isEmpty && s.data.all Char.isAlphanum

/-- The tag-format test of `get_cat_image` (src/streamlit_app.py line 73):
the sanitized tag is REJECTED when
`not tag.isalnum() and not all(c in '-_' for c in tag if not c.isalnum())`,
i.e. accepted iff it is a nonempty alphanumeric string or every
non-alphanumeric character of it is `-` or `_`. -/
def tagAccepted (tag : String) : Bool :=
  pyIsAlnum tag || tag.data.all (fun c => c.isAlphanum || c == '-' || c == '_')

/-- The URL built at src/streamlit_app.py line 80:
`f"{API_BASE_URL}/cat/{tag}?width={width}&height={height}"`. -/
def buildCatUrl (tag : String) (width height : ℤ) : String :=
  API_BASE_URL ++ "/cat/" ++ tag ++ "?width=" ++ toString width
    ++ "&height=" ++ toString height

/-- Outcome of one `requests.head(url, timeout=5)` call: `ok` means the
request succeeded and `raise_for_status` did not raise; `netFail` is any
exception out of the request (all are caught by `except Exception`). -/
inductive HeadAttempt where
  | ok
  | netFail
deriving DecidableEq, Repr

/-- What a call of `get_cat_image` produces: the returned URL (`none` for
Python `None`), the numbers of `st.warning` and `st.error` calls, the
number of HEAD requests actually issued, and the rate-limiter state
afterwards. -/
structure CatImageRes where
  result : Option String
  warnings : ℕ
  errors : ℕ
  headCalls : ℕ
  st : RLState
deriving DecidableEq, Repr

/-- `get_cat_image(tag, size)` (src/streamlit_app.py lines 65-88).
`net` lists the outcomes the network would give successive HEAD requests;
the code issues at most one, consuming `net.headD .netFail`.

* rate-limited: warn once, return `None`, no request;
* sanitize `tag.strip().lower()`; if the format test rejects it,
  `st.error` once and return `None`, no request — `size` is never checked;
* otherwise build the URL and issue one HEAD request: on success return
  the URL, on any exception `st.error` once and return `None`.  There is
  no retry. -/
def get_cat_image (st : RLState) (now : ℚ) (tag : String) (size : ℤ × ℤ)
    (net : List HeadAttempt) : CatImageRes :=
  match rate_limit_check st now with
  | (false, st') => ⟨none, 1, 0, 0, st'⟩
  | (true, st') =>
    let tag' := pySanitize tag
    if !tagAccepted tag' then
      ⟨none, 0, 1, 0, st'⟩
    else
      let url := buildCatUrl tag' size.1 size.2
      match net.headD .netFail with
      | .ok => ⟨some url, 0, 0, 1, st'⟩
      | .netFail => ⟨none, 0, 1, 1, st'⟩

/-- A lowercase hexadecimal string, the shape of every
`hashlib.md5(...).hexdigest()` output: only characters `0-9` and `a-f`. -/
def isHexStr (s : String) : Bool :=
  s.data.all (fun c => (48 ≤ c.toNat && c.toNat ≤ 57) || (97 ≤ c.toNat && c.toNat ≤ 102))

/-- The claim's "url is prefixed by the trusted API base URL". -/
def urlTrusted (url : String) : Bool := API_BASE_URL.data.isPrefixOf url.data

/-- One user "Add to Favorites" action in `main` (src/streamlit_app.py
lines 140-148): the saved url is the one `get_cat_image` returned, i.e.
`buildCatUrl tag width height`; `favTag` is the selected tag and `ts` the
timestamp at save time. -/
structure SaveReq where
  tag : String
  width : ℤ
  height : ℤ
  favTag : String
  ts : String
deriving DecidableEq, Repr

/-- The url a `SaveReq` saves. -/
def reqUrl (r : SaveReq) : String := buildCatUrl r.tag r.width r.height

/-- The favorites mapping produced by a session's sequence of
"Add to Favorites" actions, starting from the empty dict
(src/streamlit_app.py line 19). -/
def buildFavs (md5hex : String → String) (reqs : List SaveReq) : Favorites :=
  reqs.foldl (fun m r => save_to_favorites md5hex (reqUrl r) r.favTag r.ts m) []

/-- The mutation performed by the Remove button handler of
`display_favorites` in the main app (src/streamlit_app.py line 114):
`st.session_state.favorites.pop(favorite['url'], None)` — it pops by the
favorite's URL VALUE, not by its md5 key. -/
def display_favorites_remove (m : Favorites) (favorite : Favorite) : Favorites :=
  popKey m favorite.url

/-- A concrete favorites dict with 50 distinct entries (hash instantiated
to the identity for concreteness). -/
def favs50 : Favorites :=
  (List.range 50).foldl
    (fun m i => save_to_favorites (fun s => s) ("u" ++ toString i) "t" "ts" m) []

/-! ## Helper lemmas about the favorites dict -/

theorem favKeys_append (m₁ m₂ : Favorites) :
    favKeys (m₁ ++ m₂) = favKeys m₁ ++ favKeys m₂ := by
  simp [favKeys]

theorem dictInsert_length_of_not_mem {m : Favorites} {k : String} (v : Favorite)
    (h : k ∉ favKeys m) : (dictInsert m k v).length = m.length + 1 := by
  simp [dictInsert, h]

theorem mem_dictInsert_self (m : Favorites) (k : String) (v : Favorite) :
    (k, v) ∈ dictInsert m k v := by
  unfold dictInsert
  split
  · rename_i h
    rcases List.mem_map.mp h with ⟨p, hp, hk⟩
    refine List.mem_map.mpr ⟨p, hp, ?_⟩
    simp [hk]
  · exact List.mem_append_right _ (List.mem_singleton.mpr rfl)

theorem mem_of_mem_dictInsert {m : Favorites} {k : String} {v : Favorite}
    {p : String × Favorite} (h : p ∈ dictInsert m k v) : p ∈ m ∨ p = (k, v) := by
  unfold dictInsert at h
  split at h
  · rcases List.mem_map.mp h with ⟨q, hq, he⟩
    by_cases hk : q.1 = k
    · right
      simpa [hk] using he.symm
    · left
      have hqp : q = p := by simpa [hk] using he
      exact hqp ▸ hq
  · rcases List.mem_append.mp h with hm | hs
    · exact Or.inl hm
    · exact Or.inr (List.mem_singleton.mp hs)

theorem popKey_of_not_mem : ∀ {m : Favorites} {k : String},
    k ∉ favKeys m → popKey m k = m
  | [], _, _ => rfl
  | p :: rest, k, h => by
    have hne : ¬ p.1 = k := fun e => h (by simp [favKeys, e])
    have hrest : k ∉ favKeys rest := fun e => h (by simp [favKeys] at e ⊢; right; exact e)
    simp [popKey, hne, popKey_of_not_mem hrest]

theorem popKey_append_singleton {m : Favorites} {k : String} (v : Favorite)
    (h : k ∉ favKeys m) : popKey (m ++ [(k, v)]) k = m := by
  induction m with
  | nil => simp [popKey]
  | cons p rest ih =>
    have hne : ¬ p.1 = k := fun e => h (by simp [favKeys, e])
    have hrest : k ∉ favKeys rest := fun e => h (by simp [favKeys] at e ⊢; right; exact e)
    simp [popKey, hne, ih hrest]

theorem mem_buildFavs {md5hex : String → String} {reqs : List SaveReq}
    {p : String × Favorite} (h : p ∈ buildFavs md5hex reqs) :
    ∃ r ∈ reqs, p = (md5hex (reqUrl r), ⟨reqUrl r, r.favTag, r.ts⟩) := by
  suffices H : ∀ (reqs : List SaveReq) (m0 : Favorites),
      p ∈ reqs.foldl
        (fun m r => save_to_favorites md5hex (reqUrl r) r.favTag r.ts m) m0 →
      p ∈ m0 ∨ ∃ r ∈ reqs, p = (md5hex (reqUrl r), ⟨reqUrl r, r.favTag, r.ts⟩) by
    rcases H reqs [] h with hc | hc
    · simp at hc
    · exact hc
  intro reqs
  induction reqs with
  | nil => intro m0 h0; exact Or.inl h0
  | cons r rest ih =>
    intro m0 h0
    rcases ih _ h0 with hm | ⟨r', hr', he⟩
    · rcases mem_of_mem_dictInsert hm with hm0 | he
      · exact Or.inl hm0
      · exact Or.inr ⟨r, List.mem_cons_self r rest, he⟩
    · exact Or.inr ⟨r', List.mem_cons_of_mem r hr', he⟩

/-! ## Helper lemmas about the string order and sanitization -/

theorem charsLE_total : ∀ as bs : List Char, charsLE as bs = true ∨ charsLE bs as = true
  | [], _ => Or.inl rfl
  | _ :: _, [] => Or.inr rfl
  | a :: as, b :: bs => by
    by_cases h : a.toNat = b.toNat
    · rcases charsLE_total as bs with hl | hr
      · left
        simp [charsLE, h, hl]
      · right
        simp [charsLE, h.symm, hr]
    · have h' : ¬ b.toNat = a.toNat := fun e => h e.symm
      simp only [charsLE, if_neg h, if_neg h', decide_eq_true_eq]
      omega

theorem charsLE_trans : ∀ as bs cs : List Char,
    charsLE as bs = true → charsLE bs cs = true → charsLE as cs = true
  | [], _, _, _, _ => rfl
  | _ :: _, [], _, h1, _ => by simp [charsLE] at h1
  | _ :: _, _ :: _, [], _, h2 => by simp [charsLE] at h2
  | a :: as, b :: bs, c :: cs, h1, h2 => by
    by_cases hab : a.toNat = b.toNat <;> by_cases hbc : b.toNat = c.toNat
    · have hac : a.toNat = c.toNat := hab.trans hbc
      simp only [charsLE, if_pos hab] at h1
      simp only [charsLE, if_pos hbc] at h2
      simp only [charsLE, if_pos hac]
      exact charsLE_trans as bs cs h1 h2
    · simp only [charsLE, if_neg hbc, decide_eq_true_eq] at h2
      have hac : ¬ a.toNat = c.toNat := by omega
      simp only [charsLE, if_neg hac, decide_eq_true_eq]
      omega
    · simp only [charsLE, if_neg hab, decide_eq_true_eq] at h1
      have hac : ¬ a.toNat = c.toNat := by omega
      simp only [charsLE, if_neg hac, decide_eq_true_eq]
      omega
    · simp only [charsLE, if_neg hab, decide_eq_true_eq] at h1
      simp only [charsLE, if_neg hbc, decide_eq_true_eq] at h2
      have hac : ¬ a.toNat = c.toNat := by omega
      simp only [charsLE, if_neg hac, decide_eq_true_eq]
      omega

instance : IsTotal String (fun a b => pyLE a b = true) :=
  ⟨fun a b => charsLE_total a.data b.data⟩

instance : IsTrans String (fun a b => pyLE a b = true) :=
  ⟨fun a b c => charsLE_trans a.data b.data c.data⟩

/-! ## Helper lemmas about the rate limiter and the fetch operations -/

theorem rate_limit_check_denied {st : RLState} {now : ℚ}
    (h : now - st.last_api_call < 2) : rate_limit_check st now = (false, st) := by
  simp [rate_limit_check, RATE_LIMIT_SECONDS, h]

theorem rate_limit_check_allowed {st : RLState} {now : ℚ}
    (h : ¬ now - st.last_api_call < 2) :
    rate_limit_check st now = (true, ⟨now, st.api_call_count⟩) := by
  simp [rate_limit_check, RATE_LIMIT_SECONDS, h]

theorem get_cat_image_st (st : RLState) (now : ℚ) (tag : String) (size : ℤ × ℤ)
    (net : List HeadAttempt) :
    (get_cat_image st now tag size net).st = (rate_limit_check st now).2 := by
  unfold get_cat_image
  rcases h : rate_limit_check st now with ⟨b, st'⟩
  cases b
  · rfl
  · dsimp only
    split
    · rfl
    · split <;> rfl

/-! ## Helper lemmas about hex digests and the built URLs -/

theorem colon_mem_buildCatUrl (tag : String) (w h : ℤ) :
    ':' ∈ (buildCatUrl tag w h).data := by
  unfold buildCatUrl API_BASE_URL
  simp only [String.data_append, List.mem_append]
  refine Or.inl (Or.inl (Or.inl (Or.inl (Or.inl (Or.inl ?_)))))
  decide

theorem not_hex_of_colon_mem {s : String} (h : ':' ∈ s.data) :
    ¬ isHexStr s = true := by
  intro hhex
  have hc := List.all_eq_true.mp hhex ':' h
  exact absurd hc (by decide)

theorem fetch_tags_allowed {st : RLState} {now : ℚ} (net : ℕ → TagsAttempt)
    (h : ¬ now - st.last_api_call < 2) :
    fetch_tags st now net =
      match fetchTagsLoop net 0 with
      | .ok (tags, errs) => ⟨.ok tags, 0, errs, ⟨now, st.api_call_count⟩⟩
      | .error e => ⟨.error e, 0, 0, ⟨now, st.api_call_count⟩⟩ := by
  unfold fetch_tags
  rw [rate_limit_check_allowed h]

theorem get_cat_image_allowed {st : RLState} {now : ℚ} (tag : String)
    (size : ℤ × ℤ) (net : List HeadAttempt) (h : ¬ now - st.last_api_call < 2) :
    get_cat_image st now tag size net =
      if !tagAccepted (pySanitize tag) then
        ⟨none, 0, 1, 0, ⟨now, st.api_call_count⟩⟩
      else
        match net.headD .netFail with
        | .ok => ⟨some (buildCatUrl (pySanitize tag) size.1 size.2), 0, 0, 1,
            ⟨now, st.api_call_count⟩⟩
        | .netFail => ⟨none, 0, 1, 1, ⟨now, st.api_call_count⟩⟩ := by
  unfold get_cat_image
  rw [rate_limit_check_allowed h]

theorem get_cat_image_denied {st : RLState} {now : ℚ} (tag : String)
    (size : ℤ × ℤ) (net : List HeadAttempt) (h : now - st.last_api_call < 2) :
    get_cat_image st now tag size net = ⟨none, 1, 0, 0, st⟩ := by
  unfold get_cat_image
  rw [rate_limit_check_denied h]

/-! ## Claims -/

/-- C1, counterexample.  The claim says the favorites mapping never exceeds
50 entries because an insertion is rejected once the count is ≥ 50.  On the
code, `save_to_favorites` has no size check at all: starting from a dict
that already holds 50 entries, saving a fresh URL is accepted and the dict
grows to 51 entries. -/
theorem c1_cap_counterexample :
    favs50.length = 50 ∧
    (save_to_favorites (fun s => s) "v" "t" "ts" favs50).length = 51 := by
  constructor <;> decide

/-- C1, amended.  `save_to_favorites` enforces no cap whatsoever: an
insertion whose key is not already present always grows the mapping by one
entry, also past 50. -/
theorem save_to_favorites_no_cap (md5hex : String → String) (url tag ts : String)
    (m : Favorites) (h : md5hex url ∉ favKeys m) :
    (save_to_favorites md5hex url tag ts m).length = m.length + 1 :=
  dictInsert_length_of_not_mem _ h

/-- C1, witness: the amended claim applied to the concrete 50-entry dict. -/
theorem save_to_favorites_no_cap_witness :
    (save_to_favorites (fun s => s) "v" "t" "ts" favs50).length = favs50.length + 1 :=
  save_to_favorites_no_cap (fun s => s) "v" "t" "ts" favs50 (by decide)

/-- C2, counterexample.  The claim says a `save_favorite` whose URL is not
prefixed by the trusted base is rejected with the mapping unchanged.  On
the code there is no URL validation: saving `http://evil.example/cat`
(untrusted prefix) into the empty dict inserts the entry. -/
theorem c2_no_url_validation_counterexample :
    urlTrusted "http://evil.example/cat" = false ∧
    save_to_favorites (fun s => s) "http://evil.example/cat" "t" "ts" [] =
      [("http://evil.example/cat", ⟨"http://evil.example/cat", "t", "ts"⟩)] := by
  constructor <;> decide

/-- C2, amended.  `save_to_favorites` validates nothing: for every URL,
trusted-prefixed or not, the entry is inserted into the mapping. -/
theorem save_to_favorites_accepts_any_url (md5hex : String → String)
    (url tag ts : String) (m : Favorites) :
    (md5hex url, ⟨url, tag, ts⟩) ∈ save_to_favorites md5hex url tag ts m :=
  mem_dictInsert_self m (md5hex url) ⟨url, tag, ts⟩

/-- C5, counterexample.  The claim says a permitted `rate_limit_check`
increments `callCount`.  On the code, a permitted call (state
`last_api_call = 0`, now `10`) returns true but leaves `api_call_count`
at 0 — the counter is never touched by `rate_limit_check`. -/
theorem c5_counterexample :
    (rate_limit_check ⟨0, 0⟩ 10).1 = true ∧
    (rate_limit_check ⟨0, 0⟩ 10).2.api_call_count ≠
      (⟨0, 0⟩ : RLState).api_call_count + 1 := by
  refine ⟨?_, ?_⟩ <;> norm_num [rate_limit_check, RATE_LIMIT_SECONDS]

/-- C5, amended.  `rate_limit_check` returns false and leaves the state
unchanged when less than 2 seconds have elapsed since the last permitted
call; otherwise it sets `lastCallTime` to the current time and returns
true.  `callCount` is never modified. -/
theorem rate_limit_check_spec (st : RLState) (now : ℚ) :
    (now - st.last_api_call < 2 → rate_limit_check st now = (false, st)) ∧
    (¬ now - st.last_api_call < 2 →
      rate_limit_check st now = (true, ⟨now, st.api_call_count⟩)) :=
  ⟨fun h => rate_limit_check_denied h, fun h => rate_limit_check_allowed h⟩

/-- C5, witness: both branches of the amended claim at concrete states. -/
theorem rate_limit_check_spec_witness :
    rate_limit_check ⟨0, 0⟩ 10 = (true, ⟨10, 0⟩) ∧
    rate_limit_check ⟨9, 0⟩ 10 = (false, ⟨9, 0⟩) :=
  ⟨(rate_limit_check_spec ⟨0, 0⟩ 10).2 (by norm_num),
   (rate_limit_check_spec ⟨9, 0⟩ 10).1 (by norm_num)⟩

/-- C9.  Saving a URL whose key is not already in the favorites mapping and
then removing that favorite by its key (the md5 digest, as the favorites
page's Remove handler does) returns the mapping to its prior state. -/
theorem save_then_remove_roundtrip (md5hex : String → String) (url tag ts : String)
    (m : Favorites) (h : md5hex url ∉ favKeys m) :
    popKey (save_to_favorites md5hex url tag ts m) (md5hex url) = m := by
  unfold save_to_favorites dictInsert
  rw [if_neg h]
  exact popKey_append_singleton _ h

/-- C9, witness: the round trip on a concrete one-entry dict. -/
theorem save_then_remove_roundtrip_witness :
    popKey
      (save_to_favorites (fun _ => "d41d8cd98f00b204e9800998ecf8427e")
        "https://cataas.com/cat/cats?width=400&height=400" "cats" "ts1"
        [("k0", ⟨"u0", "t0", "ts0"⟩)])
      "d41d8cd98f00b204e9800998ecf8427e" =
      [("k0", ⟨"u0", "t0", "ts0"⟩)] :=
  save_then_remove_roundtrip _ _ _ _ _ (by decide)

/-- C10.  In every favorites mapping built by `save_to_favorites` (keys are
md5 hex digests of the saved URLs, the URLs being the `{base}/cat/...`
strings `get_cat_image` returns), the main app's `display_favorites` Remove
handler — `favorites.pop(favorite['url'], None)` — is a no-op: the URL value
contains `:`, no hex digest does, so the popped key is never present. -/
theorem display_favorites_remove_noop (md5hex : String → String)
    (hhex : ∀ s, isHexStr (md5hex s) = true) (reqs : List SaveReq)
    (k : String) (fav : Favorite) (hmem : (k, fav) ∈ buildFavs md5hex reqs) :
    display_favorites_remove (buildFavs md5hex reqs) fav = buildFavs md5hex reqs := by
  unfold display_favorites_remove
  apply popKey_of_not_mem
  intro hk
  unfold favKeys at hk
  rcases List.mem_map.mp hk with ⟨p, hp, hfst⟩
  rcases mem_buildFavs hp with ⟨r, _, he⟩
  rcases mem_buildFavs hmem with ⟨r', _, he'⟩
  have hurl : fav.url = reqUrl r' := by
    simpa using congrArg (fun q : String × Favorite => q.2.url) he'
  have hcolon : ':' ∈ fav.url.data := by
    rw [hurl]
    exact colon_mem_buildCatUrl r'.tag r'.width r'.height
  have hp1 : p.1 = md5hex (reqUrl r) := by rw [he]
  have hhexurl : isHexStr fav.url = true := by
    rw [← hfst, hp1]
    exact hhex _
  exact not_hex_of_colon_mem hcolon hhexurl

/-- C10, witness: a concrete one-entry mapping (hash instantiated to a
constant hex digest); the main app's Remove handler leaves it unchanged. -/
theorem display_favorites_remove_noop_witness :
    display_favorites_remove
      (buildFavs (fun _ => "d41d8cd98f00b204e9800998ecf8427e")
        [⟨"cats", 400, 400, "cats", "ts0"⟩])
      ⟨reqUrl ⟨"cats", 400, 400, "cats", "ts0"⟩, "cats", "ts0"⟩ =
    buildFavs (fun _ => "d41d8cd98f00b204e9800998ecf8427e")
      [⟨"cats", 400, 400, "cats", "ts0"⟩] :=
  display_favorites_remove_noop _ (fun _ => by decide) _
    "d41d8cd98f00b204e9800998ecf8427e" _ (by decide)

/-- C3, counterexample.  The claim says `list_tags()` returns a sequence
with no duplicates for any JSON array input.  `fetch_tags` returns
`sorted(data)`, and Python's `sorted` keeps duplicates: on the input
`["a", "a"]` the result is `["a", "a"]`, which is not duplicate-free. -/
theorem c3_duplicates_counterexample :
    (fetch_tags ⟨0, 0⟩ 10 (fun _ => .ok ["a", "a"])).result = .ok ["a", "a"] ∧
    ¬ (["a", "a"] : List String).Nodup := by
  constructor
  · rw [fetch_tags_allowed _ (by norm_num)]
    exact congrArg Except.ok (by decide)
  · decide

/-- C3, amended.  When the tags endpoint answers with a JSON array of
strings, `fetch_tags` returns it sorted lexicographically — duplicates
preserved, not removed; in particular `["siamese","bengal"]` yields
`["bengal","siamese"]` (see the witness). -/
theorem fetch_tags_sorted (st : RLState) (now : ℚ) (tags : List String)
    (h : ¬ now - st.last_api_call < 2) :
    (fetch_tags st now (fun _ => .ok tags)).result = .ok (pySorted tags) ∧
    List.Sorted (fun a b => pyLE a b = true) (pySorted tags) ∧
    (pySorted tags).Perm tags := by
  refine ⟨?_, ?_, ?_⟩
  · rw [fetch_tags_allowed _ h]
    rfl
  · exact List.sorted_insertionSort _ tags
  · exact List.perm_insertionSort _ tags

/-- C3, witness: the spec's scenario, via the amended claim. -/
theorem fetch_tags_sorted_witness :
    (fetch_tags ⟨0, 0⟩ 10 (fun _ => .ok ["siamese", "bengal"])).result =
      .ok ["bengal", "siamese"] := by
  rw [(fetch_tags_sorted ⟨0, 0⟩ 10 ["siamese", "bengal"] (by norm_num)).1]
  exact congrArg Except.ok (by decide)

/-- C4.  The claim (and the spec) say every network failure during the tag
fetch is caught, an error is reported exactly once and `[]` is returned.
On the code this is impossible: the `except requests.RequestException`
handler's first statement is `logging.warning(...)`, and `logging` is never
imported (src/streamlit_app.py lines 1-7), so the first failed attempt
raises an uncaught `NameError`; no error message is shown, nothing is
returned, and the retry loop never reaches its second attempt. -/
theorem c4_uncaught_nameerror :
    fetch_tags ⟨0, 0⟩ 10 (fun _ => .netFail) =
      ⟨.error .nameErrorLogging, 0, 0, ⟨10, 0⟩⟩ := by
  rw [fetch_tags_allowed _ (by norm_num)]
  rfl

/-- C6, counterexample.  The claim says a network failure in the HEAD-check
`fetch_image` is retried up to 3 times with backoff.  On the code there is
no retry: with the first HEAD request failing and the network ready to
answer the second and third requests successfully, `get_cat_image` issues
exactly one request (`headCalls = 1`), reports the error and returns
`None`. -/
theorem c6_no_retry_counterexample :
    get_cat_image ⟨0, 0⟩ 10 "cats" (400, 400) [.netFail, .ok, .ok] =
      ⟨none, 0, 1, 1, ⟨10, 0⟩⟩ := by
  rw [get_cat_image_allowed _ _ _ (by norm_num)]
  rfl

/-- C6, amended.  `get_cat_image` never retries: for a valid tag, when the
single HEAD request fails — however many further attempts the network would
have answered — it reports one error and returns nothing, having issued
exactly one request. -/
theorem get_cat_image_no_retry (st : RLState) (now : ℚ) (tag : String)
    (size : ℤ × ℤ) (rest : List HeadAttempt)
    (hrl : ¬ now - st.last_api_call < 2)
    (htag : tagAccepted (pySanitize tag) = true) :
    get_cat_image st now tag size (.netFail :: rest) =
      ⟨none, 0, 1, 1, ⟨now, st.api_call_count⟩⟩ := by
  rw [get_cat_image_allowed _ _ _ hrl, htag]
  rfl

/-- C6, witness: the amended claim at a concrete failing call. -/
theorem get_cat_image_no_retry_witness :
    get_cat_image ⟨0, 0⟩ 10 "cats" (400, 400) [.netFail] =
      ⟨none, 0, 1, 1, ⟨10, 0⟩⟩ :=
  get_cat_image_no_retry ⟨0, 0⟩ 10 "cats" (400, 400) [] (by norm_num) (by decide)

/-- C7, counterexample.  The claim says width/height outside [100,800] are
rejected before any network call.  On the code the dimensions are never
checked: with `size = (50, 50)` the HEAD request is issued
(`headCalls = 1`) and the URL is returned. -/
theorem c7_dimensions_counterexample :
    get_cat_image ⟨0, 0⟩ 10 "cats" (50, 50) [.ok] =
      ⟨some "https://cataas.com/cat/cats?width=50&height=50", 0, 0, 1, ⟨10, 0⟩⟩ := by
  rw [get_cat_image_allowed _ _ _ (by norm_num)]
  rfl

/-- C7, amended.  Only the tag is validated: when the sanitized tag
(`tag.strip().lower()`) contains a character that is neither alphanumeric
nor `-`/`_`, the call is rejected before any network request
(`headCalls = 0`) and returns nothing with one error message.  The
width/height are not checked. -/
theorem get_cat_image_rejects_bad_tag (st : RLState) (now : ℚ) (tag : String)
    (size : ℤ × ℤ) (net : List HeadAttempt) (c : Char)
    (hrl : ¬ now - st.last_api_call < 2)
    (hc : c ∈ (pySanitize tag).data)
    (hbad : c.isAlphanum = false ∧ c ≠ '-' ∧ c ≠ '_') :
    get_cat_image st now tag size net = ⟨none, 0, 1, 0, ⟨now, st.api_call_count⟩⟩ := by
  have hall1 : (pySanitize tag).data.all Char.isAlphanum = false :=
    List.all_eq_false.mpr ⟨c, hc, by simp [hbad.1]⟩
  have hall2 : (pySanitize tag).data.all
      (fun x => x.isAlphanum || x == '-' || x == '_') = false :=
    List.all_eq_false.mpr ⟨c, hc, by simp [hbad.1, hbad.2.1, hbad.2.2]⟩
  have hrej : tagAccepted (pySanitize tag) = false := by
    simp [tagAccepted, pyIsAlnum, hall1, hall2]
  rw [get_cat_image_allowed _ _ _ hrl, hrej]
  rfl

/-- C7, witness: the amended claim at the concrete tag `"c!t"`. -/
theorem get_cat_image_rejects_bad_tag_witness :
    get_cat_image ⟨0, 0⟩ 10 "c!t" (400, 400) [.ok] =
      ⟨none, 0, 1, 0, ⟨10, 0⟩⟩ :=
  get_cat_image_rejects_bad_tag ⟨0, 0⟩ 10 "c!t" (400, 400) [.ok] '!'
    (by norm_num) (by decide) (by decide)

/-- C8.  Two `get_cat_image` calls less than 2 seconds apart, the first of
which was permitted: the second is rate-limited — it issues no HEAD
request, returns nothing with one warning, and leaves the session state
unchanged. -/
theorem rate_limit_skips_second_fetch (st : RLState) (t1 t2 : ℚ)
    (tag1 tag2 : String) (size1 size2 : ℤ × ℤ) (net1 net2 : List HeadAttempt)
    (h1 : ¬ t1 - st.last_api_call < 2) (h2 : t2 - t1 < 2) :
    get_cat_image (get_cat_image st t1 tag1 size1 net1).st t2 tag2 size2 net2 =
      ⟨none, 1, 0, 0, (get_cat_image st t1 tag1 size1 net1).st⟩ := by
  have hst : (get_cat_image st t1 tag1 size1 net1).st = ⟨t1, st.api_call_count⟩ := by
    rw [get_cat_image_st, rate_limit_check_allowed h1]
  rw [hst]
  exact get_cat_image_denied _ _ _ (by simpa using h2)

/-- C8, witness: a permitted fetch at t=10 followed by a fetch at t=11. -/
theorem rate_limit_skips_second_fetch_witness :
    get_cat_image (get_cat_image ⟨0, 0⟩ 10 "cats" (400, 400) [.ok]).st 11
      "cats" (400, 400) [.ok] =
      ⟨none, 1, 0, 0, (get_cat_image ⟨0, 0⟩ 10 "cats" (400, 400) [.ok]).st⟩ :=
  rate_limit_skips_second_fetch ⟨0, 0⟩ 10 11 "cats" "cats" (400, 400) (400, 400)
    [.ok] [.ok] (by norm_num) (by norm_num)

end CatAPI
